import Mathlib

/-!
Shallow embedding of `wise_api/client.py`: an HTTP client for the Wise API.
The network transport (the `requests` session) is modelled as an explicit
function from the history of previously issued requests and the current
request to a response, so that theorems can count and inspect the requests
a call issues.  JSON bodies are modelled by an inductive value type; the
result of the external `resp.json()` parse is a field of the response
(`none` models a JSON decode failure raised by the `requests` library).
-/

namespace WiseApi

/-- JSON values, as produced by `resp.json()` (Python dicts keep insertion
order, modelled as association lists). -/
inductive JsonVal where
  | null
  | bool (b : Bool)
  | num (n : Int)
  | str (s : String)
  | arr (elems : List JsonVal)
  | obj (fields : List (String × JsonVal))

/-- Python `dict.get(key)` on a JSON object (returns `none` both when the
key is missing and when the value is not an object; the source only ever
applies `.get` to dict response bodies). -/
def JsonVal.get? : JsonVal → String → Option JsonVal
  | .obj fields, key => (fields.find? (fun f => f.1 == key)).map (fun f => f.2)
  | _, _ => none

/-- Python truthiness of a JSON value (`if next_cursor:` in the source). -/
def JsonVal.truthy : JsonVal → Bool
  | .null => false
  | .bool b => b
  | .num n => n != 0
  | .str s => !s.isEmpty
  | .arr elems => !elems.isEmpty
  | .obj fields => !fields.isEmpty

/-- Serialization of a scalar JSON value when used as a query-parameter
value (as the `requests` library stringifies parameter values). -/
def JsonVal.toParam : JsonVal → String
  | .str s => s
  | .num n => toString n
  | .bool b => if b then "True" else "False"
  | .null => "None"
  | _ => ""

/-- First-match association-list lookup, as used for response headers and
query parameters. -/
def assocGet (pairs : List (String × String)) (key : String) : Option String :=
  (pairs.find? (fun p => p.1 == key)).map (fun p => p.2)

/-- An outgoing HTTP GET request: full URL, headers, query parameters. -/
structure Request where
  url : String
  headers : List (String × String)
  params : List (String × String)
deriving DecidableEq, Repr

/-- An HTTP response: status code, headers, raw body bytes (`resp.content`)
and the result of the external JSON parse (`resp.json()`; `none` models the
decode error the `requests` library raises on a non-JSON body). -/
structure Response where
  status_code : Nat
  headers : List (String × String)
  content : String
  json : Option JsonVal

/-- `resp.headers.get(key)`. -/
def headerGet (resp : Response) (key : String) : Option String :=
  assocGet resp.headers key

/-- `sca_required` (client.py lines 13-17). -/
def sca_required (resp : Response) : Bool :=
  resp.status_code == 403
    && headerGet resp "x-2fa-approval-result" == some "REJECTED"

/-- The network: given the history of requests already issued (across the
whole session) and the request now sent, the server's response. -/
def Transport : Type := List Request → Request → Response

/-- The client configuration (the `APIClient` constructor's state). -/
structure APIClient where
  api_key : String
  signing_key : String
  production : Bool
deriving DecidableEq, Repr

def APIClient.sandbox_url : String := "https://api.sandbox.transferwise.tech"

def APIClient.production_url : String := "https://api.transferwise.com"

/-- `APIClient.base_url` (client.py lines 31-36). -/
def APIClient.base_url (c : APIClient) : String :=
  if !c.production then APIClient.sandbox_url else APIClient.production_url

/-- Errors a call can raise: `WiseInvalidPublicKeyError` (from the
repository's exceptions module), the `requests` `HTTPError` from
`raise_for_status` (carrying the status code), a `KeyError` from
`resp.headers[k]` on a missing header, and the JSON decode error from
`resp.json()`. -/
inductive GetError where
  | invalidPublicKey (msg : String)
  | httpError (status : Nat)
  | keyError (key : String)
  | jsonDecodeError
deriving DecidableEq, Repr

/-- The headers of the initial GET (client.py line 40). -/
def APIClient.initialHeaders (c : APIClient) : List (String × String) :=
  [("authorization", "Bearer " ++ c.api_key)]

/-- The initial request `get` issues (client.py lines 39-45). -/
def APIClient.initialRequest (c : APIClient) (path : String)
    (params : List (String × String)) : Request :=
  ⟨c.base_url ++ path, c.initialHeaders, params⟩

/-- The SCA replay request: same URL and params, with `x-2fa-approval` and
`x-signature` added to the headers (client.py lines 48-53).  `sign` models
the external `sign_approval_token` from the crypto module. -/
def APIClient.replayRequest (c : APIClient) (sign : String → String → String)
    (path : String) (params : List (String × String)) (token : String) : Request :=
  ⟨c.base_url ++ path,
    c.initialHeaders ++ [("x-2fa-approval", token), ("x-signature", sign c.signing_key token)],
    params⟩

/-- `resp.raise_for_status()` followed by `return resp.json()`:
`raise_for_status` raises for 4xx and 5xx status codes. -/
def finishResponse (resp : Response) : Except GetError JsonVal :=
  if 400 ≤ resp.status_code ∧ resp.status_code < 600 then
    Except.error (GetError.httpError resp.status_code)
  else
    match resp.json with
    | some body => Except.ok body
    | none => Except.error GetError.jsonDecodeError

/-- `APIClient.get` (client.py lines 38-62).  Takes the request history so
far and returns the result together with the extended history (the history
grows by exactly the requests this call issued). -/
def APIClient.get (c : APIClient) (sign : String → String → String)
    (send : Transport) (hist : List Request) (path : String)
    (params : List (String × String)) :
    Except GetError JsonVal × List Request :=
  let req1 := c.initialRequest path params
  let resp := send hist req1
  if sca_required resp then
    match headerGet resp "x-2fa-approval" with
    | none => (Except.error (GetError.keyError "x-2fa-approval"), hist ++ [req1])
    | some token =>
      let req2 := c.replayRequest sign path params token
      let resp2 := send (hist ++ [req1]) req2
      if resp2.status_code == 400 then
        (Except.error
          (GetError.invalidPublicKey "Strong Customer Authentication has been rejected."),
          hist ++ [req1, req2])
      else
        (finishResponse resp2, hist ++ [req1, req2])
  else
    (finishResponse resp, hist ++ [req1])

/-- `get_current_user` (client.py lines 64-65). -/
def APIClient.get_current_user (c : APIClient) (sign : String → String → String)
    (send : Transport) (hist : List Request) : Except GetError JsonVal × List Request :=
  c.get sign send hist "/v1/me" []

/-- `get_user_profiles` (client.py lines 67-68). -/
def APIClient.get_user_profiles (c : APIClient) (sign : String → String → String)
    (send : Transport) (hist : List Request) : Except GetError JsonVal × List Request :=
  c.get sign send hist "/v1/profiles" []

/-- Statement format argument: `type: Literal["pdf", "csv", "json"]`. -/
inductive StatementType where
  | pdf
  | csv
  | json
deriving DecidableEq, Repr

/-- The file-extension suffix the statement format selects. -/
def StatementType.ext : StatementType → String
  | .pdf => "pdf"
  | .csv => "csv"
  | .json => "json"

/-- `get_balance_statement` (client.py lines 76-95).  The `start` and `end`
timestamps appear here already serialized by the external `zulu_time`
helper (the utils module is not part of the embedded source). -/
def APIClient.get_balance_statement (c : APIClient) (sign : String → String → String)
    (send : Transport) (hist : List Request) (profile_id balance_id : String)
    (currency : String) (start end_ : String) (type : StatementType) (compact : Bool) :
    Except GetError JsonVal × List Request :=
  c.get sign send hist
    ("/v1/profiles/" ++ profile_id ++ "/balance-statements/" ++ balance_id
      ++ "/statement." ++ type.ext)
    [("intervalStart", start), ("intervalEnd", end_), ("currency", currency),
      ("type", if compact then "COMPACT" else "FLAT")]

/-- `get_borderless_account_statement` (client.py lines 97-116). -/
def APIClient.get_borderless_account_statement (c : APIClient)
    (sign : String → String → String) (send : Transport) (hist : List Request)
    (profile_id account_id : String) (currency : String) (start end_ : String)
    (type : StatementType) (compact : Bool) :
    Except GetError JsonVal × List Request :=
  c.get sign send hist
    ("/v3/profiles/" ++ profile_id ++ "/borderless-accounts/" ++ account_id
      ++ "/statement." ++ type.ext)
    [("intervalStart", start), ("intervalEnd", end_), ("currency", currency),
      ("type", if compact then "COMPACT" else "FLAT")]

/-- Result of running the paginator generator to completion: `done` when
the loop hit `break` (no/empty cursor), `failed` when an underlying `get`
raised mid-iteration, `fuelOut` when the supplied fuel ran out (modelling
an iteration that has not terminated after `fuel` pages). -/
inductive PageResult where
  | done (acts : List JsonVal)
  | failed (acts : List JsonVal) (e : GetError)
  | fuelOut (acts : List JsonVal)

/-- The per-iteration parameters: `params.copy()` plus `nextCursor` when
the current cursor is truthy (client.py lines 167-169). -/
def currentParams (params : List (String × String)) (next_cursor : JsonVal) :
    List (String × String) :=
  params ++ (if next_cursor.truthy then [("nextCursor", next_cursor.toParam)] else [])

/-- The `while True` pagination loop of `get_activities` (client.py lines
165-181), with explicit fuel.  Each iteration issues one `get`, yields the
`activities` list of the body (empty when the key is missing; non-list
values for the key are outside the modelled domain), then reads `cursor`
(`null` when missing, i.e. Python `None`) and breaks when it is falsy. -/
def APIClient.activitiesLoop (c : APIClient) (sign : String → String → String)
    (send : Transport) (path : String) (params : List (String × String)) :
    Nat → JsonVal → List Request → PageResult × List Request
  | 0, _, hist => (PageResult.fuelOut [], hist)
  | fuel + 1, next_cursor, hist =>
    match c.get sign send hist path (currentParams params next_cursor) with
    | (Except.error e, hist2) => (PageResult.failed [] e, hist2)
    | (Except.ok response_data, hist2) =>
      let activities : List JsonVal :=
        match response_data.get? "activities" with
        | some (JsonVal.arr elems) => elems
        | _ => []
      let nc2 : JsonVal :=
        match response_data.get? "cursor" with
        | some j => j
        | none => JsonVal.null
      if nc2.truthy then
        match c.activitiesLoop sign send path params fuel nc2 hist2 with
        | (PageResult.done acts, h) => (PageResult.done (activities ++ acts), h)
        | (PageResult.failed acts e, h) => (PageResult.failed (activities ++ acts) e, h)
        | (PageResult.fuelOut acts, h) => (PageResult.fuelOut (activities ++ acts), h)
      else
        (PageResult.done activities, hist2)

/-- Outcome of `get_activities`: either the `ValueError` raised by the
size validation before any network call, or the run of the loop. -/
inductive ActivitiesOutcome where
  | valueError (msg : String)
  | run (r : PageResult)

/-- A truthiness-guarded filter parameter (`if monetary_resource_type:` —
an empty string is falsy and omitted, client.py lines 152-155). -/
def optFilterParam (key : String) : Option String → List (String × String)
  | some s => if !s.isEmpty then [(key, s)] else []
  | none => []

/-- A `datetime` filter parameter, already serialized by the external
`zulu_time` helper; a `datetime` object is always truthy, so only `None`
is omitted (client.py lines 156-159). -/
def optDateParam (key : String) : Option String → List (String × String)
  | some s => [(key, s)]
  | none => []

/-- `get_activities` (client.py lines 127-181): validates `size`, builds
the filter parameters, then runs the pagination loop (with fuel) starting
from a `None` cursor. -/
def APIClient.get_activities (c : APIClient) (sign : String → String → String)
    (send : Transport) (hist : List Request) (profile_id : String)
    (monetary_resource_type status : Option String) (since until_ : Option String)
    (size : Option Int) (fuel : Nat) : ActivitiesOutcome × List Request :=
  let params :=
    optFilterParam "monetaryResourceType" monetary_resource_type
      ++ optFilterParam "status" status
      ++ optDateParam "since" since
      ++ optDateParam "until" until_
  let path := "/v1/profiles/" ++ profile_id ++ "/activities"
  match size with
  | some n =>
    if 1 ≤ n ∧ n ≤ 100 then
      let r := c.activitiesLoop sign send path (params ++ [("size", toString n)])
        fuel JsonVal.null hist
      (ActivitiesOutcome.run r.1, r.2)
    else
      (ActivitiesOutcome.valueError "Size must be between 1 and 100", hist)
  | none =>
    let r := c.activitiesLoop sign send path params fuel JsonVal.null hist
    (ActivitiesOutcome.run r.1, r.2)

/-- C5: when the first response is not an SCA challenge and has a 2xx
status code, `get` returns the parsed JSON body of that first response and
issues exactly one request (no replay). -/
theorem get_first_success_no_replay (c : APIClient) (sign : String → String → String)
    (send : Transport) (hist : List Request) (path : String)
    (params : List (String × String)) (resp : Response) (body : JsonVal)
    (hresp : send hist (c.initialRequest path params) = resp)
    (hsca : sca_required resp = false)
    (h2xx : 200 ≤ resp.status_code ∧ resp.status_code < 300)
    (hjson : resp.json = some body) :
    c.get sign send hist path params
      = (Except.ok body, hist ++ [c.initialRequest path params]) := by
  simp only [APIClient.get, hresp, hsca, Bool.false_eq_true, if_false]
  unfold finishResponse
  rw [if_neg (by omega), hjson]

/-- C5 witness: a concrete 200 response with no SCA headers. -/
theorem get_first_success_no_replay_witness :
    (⟨"k", "s", true⟩ : APIClient).get (fun _ t => t) (fun _ _ => ⟨200, [], "", some (JsonVal.str "ok")⟩)
      [] "/v1/me" []
      = (Except.ok (JsonVal.str "ok"),
          [(⟨"k", "s", true⟩ : APIClient).initialRequest "/v1/me" []]) := by
  have h := get_first_success_no_replay (⟨"k", "s", true⟩ : APIClient) (fun _ t => t)
    (fun _ _ => ⟨200, [], "", some (JsonVal.str "ok")⟩) [] "/v1/me" []
    ⟨200, [], "", some (JsonVal.str "ok")⟩ (JsonVal.str "ok")
    rfl rfl (by decide) rfl
  simpa using h

/-- C1: when the first response is an SCA challenge (403 +
`x-2fa-approval-result: REJECTED`) carrying a token, and the replay
response is 2xx, `get` returns the parsed body of the replay and issues
exactly one replay request, whose headers are the Bearer authorization
header plus `x-2fa-approval` set to the challenge token and `x-signature`
set to `sign(signing_key, token)`. -/
theorem get_sca_replay_success (c : APIClient) (sign : String → String → String)
    (send : Transport) (hist : List Request) (path : String)
    (params : List (String × String)) (resp1 resp2 : Response) (token : String)
    (body : JsonVal)
    (hresp1 : send hist (c.initialRequest path params) = resp1)
    (hsca : sca_required resp1 = true)
    (htok : headerGet resp1 "x-2fa-approval" = some token)
    (hresp2 : send (hist ++ [c.initialRequest path params])
        (c.replayRequest sign path params token) = resp2)
    (h2xx : 200 ≤ resp2.status_code ∧ resp2.status_code < 300)
    (hjson : resp2.json = some body) :
    c.get sign send hist path params
      = (Except.ok body,
          hist ++ [c.initialRequest path params, c.replayRequest sign path params token])
    ∧ assocGet (c.replayRequest sign path params token).headers "x-2fa-approval"
        = some token
    ∧ assocGet (c.replayRequest sign path params token).headers "x-signature"
        = some (sign c.signing_key token)
    ∧ assocGet (c.replayRequest sign path params token).headers "authorization"
        = some ("Bearer " ++ c.api_key) := by
  refine ⟨?_, by simp [assocGet, APIClient.replayRequest, APIClient.initialHeaders],
    by simp [assocGet, APIClient.replayRequest, APIClient.initialHeaders],
    by simp [assocGet, APIClient.replayRequest, APIClient.initialHeaders]⟩
  simp only [APIClient.get, hresp1, hsca, if_true, htok, hresp2]
  rw [if_neg (by simp; omega)]
  unfold finishResponse
  rw [if_neg (by omega), hjson]

/-- C1 witness: a concrete 403 REJECTED challenge whose replay succeeds. -/
theorem get_sca_replay_success_witness :
    (⟨"k", "s", true⟩ : APIClient).get (fun _ t => "sig:" ++ t)
      (fun h _ => if h.isEmpty then
          ⟨403, [("x-2fa-approval-result", "REJECTED"), ("x-2fa-approval", "tok")], "", none⟩
        else ⟨200, [], "", some (JsonVal.str "replayed")⟩)
      [] "/v1/me" []
      = (Except.ok (JsonVal.str "replayed"),
          [(⟨"k", "s", true⟩ : APIClient).initialRequest "/v1/me" [],
            (⟨"k", "s", true⟩ : APIClient).replayRequest (fun _ t => "sig:" ++ t)
              "/v1/me" [] "tok"]) := by
  have h := get_sca_replay_success (⟨"k", "s", true⟩ : APIClient) (fun _ t => "sig:" ++ t)
    (fun h _ => if h.isEmpty then
        ⟨403, [("x-2fa-approval-result", "REJECTED"), ("x-2fa-approval", "tok")], "", none⟩
      else ⟨200, [], "", some (JsonVal.str "replayed")⟩)
    [] "/v1/me" []
    ⟨403, [("x-2fa-approval-result", "REJECTED"), ("x-2fa-approval", "tok")], "", none⟩
    ⟨200, [], "", some (JsonVal.str "replayed")⟩ "tok" (JsonVal.str "replayed")
    rfl (by decide) (by decide) rfl (by decide) rfl
  simpa using h.1

/-- C2: a response is classified as an SCA challenge iff its status is 403
and it carries `x-2fa-approval-result: REJECTED`; and a 403 response
without that header value triggers no replay: `get` issues one request and
fails with the generic HTTP error carrying 403. -/
theorem sca_classification (c : APIClient) (sign : String → String → String)
    (send : Transport) (hist : List Request) (path : String)
    (params : List (String × String)) (resp : Response)
    (hresp : send hist (c.initialRequest path params) = resp) :
    (sca_required resp = true
      ↔ resp.status_code = 403 ∧ headerGet resp "x-2fa-approval-result" = some "REJECTED")
    ∧ (resp.status_code = 403
        → headerGet resp "x-2fa-approval-result" ≠ some "REJECTED"
        → c.get sign send hist path params
            = (Except.error (GetError.httpError 403), hist ++ [c.initialRequest path params])) := by
  constructor
  · simp [sca_required]
  · intro h403 hnorej
    have hsca : sca_required resp = false := by
      simp [sca_required, h403, hnorej]
    simp only [APIClient.get, hresp, hsca, Bool.false_eq_true, if_false]
    unfold finishResponse
    rw [if_pos (by omega)]
    rw [h403]

/-- C2 witness: a 403 response with the header set to `PENDING` is not an
SCA challenge and yields the generic 403 error from a single request. -/
theorem sca_classification_witness :
    (sca_required ⟨403, [("x-2fa-approval-result", "PENDING")], "", none⟩ = true
      ↔ (403 : Nat) = 403
          ∧ headerGet ⟨403, [("x-2fa-approval-result", "PENDING")], "", none⟩
              "x-2fa-approval-result" = some "REJECTED")
    ∧ (⟨"k", "s", true⟩ : APIClient).get (fun _ t => t)
        (fun _ _ => ⟨403, [("x-2fa-approval-result", "PENDING")], "", none⟩) [] "/v1/me" []
        = (Except.error (GetError.httpError 403),
            [(⟨"k", "s", true⟩ : APIClient).initialRequest "/v1/me" []]) := by
  have h := sca_classification (⟨"k", "s", true⟩ : APIClient) (fun _ t => t)
    (fun _ _ => ⟨403, [("x-2fa-approval-result", "PENDING")], "", none⟩) [] "/v1/me" []
    ⟨403, [("x-2fa-approval-result", "PENDING")], "", none⟩ rfl
  exact ⟨h.1, by simpa using h.2 rfl (by decide)⟩

/-- C4: every `get` call issues at most two requests; and when the replay
response is itself an SCA challenge, no third request is issued (the
history grows by exactly the two requests) and no second signing occurs
(the replay request's signature is over the first challenge's token): the
second response falls through to normal status handling, failing with the
generic HTTP error for 403. -/
theorem get_at_most_two_requests (c : APIClient) (sign : String → String → String)
    (send : Transport) (hist : List Request) (path : String)
    (params : List (String × String)) :
    (∃ issued, (c.get sign send hist path params).2 = hist ++ issued
        ∧ issued.length ≤ 2)
    ∧ (∀ resp1 resp2 token,
        send hist (c.initialRequest path params) = resp1
        → sca_required resp1 = true
        → headerGet resp1 "x-2fa-approval" = some token
        → send (hist ++ [c.initialRequest path params])
            (c.replayRequest sign path params token) = resp2
        → sca_required resp2 = true
        → c.get sign send hist path params
            = (Except.error (GetError.httpError 403),
                hist ++ [c.initialRequest path params,
                  c.replayRequest sign path params token])) := by
  constructor
  · simp only [APIClient.get]
    split
    · split
      · exact ⟨_, rfl, by simp⟩
      · split
        · exact ⟨_, rfl, by simp⟩
        · exact ⟨_, rfl, by simp⟩
    · exact ⟨_, rfl, by simp⟩
  · intro resp1 resp2 token hresp1 hsca1 htok hresp2 hsca2
    have h403 : resp2.status_code = 403 := by
      simp [sca_required] at hsca2
      exact hsca2.1
    simp only [APIClient.get, hresp1, hsca1, if_true, htok, hresp2]
    rw [if_neg (by simp [h403])]
    unfold finishResponse
    rw [if_pos (by omega), h403]

/-- C4 witness: a server that answers every request with an SCA challenge;
the call stops after two requests with the generic 403 error. -/
theorem get_at_most_two_requests_witness :
    (∃ issued,
        ((⟨"k", "s", true⟩ : APIClient).get (fun _ t => "sig:" ++ t)
            (fun _ _ => ⟨403,
              [("x-2fa-approval-result", "REJECTED"), ("x-2fa-approval", "tok")], "", none⟩)
            [] "/v1/me" []).2 = [] ++ issued ∧ issued.length ≤ 2)
    ∧ (⟨"k", "s", true⟩ : APIClient).get (fun _ t => "sig:" ++ t)
        (fun _ _ => ⟨403,
          [("x-2fa-approval-result", "REJECTED"), ("x-2fa-approval", "tok")], "", none⟩)
        [] "/v1/me" []
        = (Except.error (GetError.httpError 403),
            [] ++ [(⟨"k", "s", true⟩ : APIClient).initialRequest "/v1/me" [],
              (⟨"k", "s", true⟩ : APIClient).replayRequest (fun _ t => "sig:" ++ t)
                "/v1/me" [] "tok"]) := by
  have h := get_at_most_two_requests (⟨"k", "s", true⟩ : APIClient) (fun _ t => "sig:" ++ t)
    (fun _ _ => ⟨403,
      [("x-2fa-approval-result", "REJECTED"), ("x-2fa-approval", "tok")], "", none⟩)
    [] "/v1/me" []
  refine ⟨h.1, ?_⟩
  exact h.2 ⟨403, [("x-2fa-approval-result", "REJECTED"), ("x-2fa-approval", "tok")], "", none⟩
    ⟨403, [("x-2fa-approval-result", "REJECTED"), ("x-2fa-approval", "tok")], "", none⟩
    "tok" rfl (by decide) (by decide) rfl (by decide)

/-- `raise_for_status` / `resp.json()` never raise `WiseInvalidPublicKeyError`. -/
theorem finishResponse_ne_invalidPublicKey (resp : Response) (m : String) :
    finishResponse resp ≠ Except.error (GetError.invalidPublicKey m) := by
  unfold finishResponse
  split
  · simp
  · split
    · simp
    · simp

/-- C3 counterexample: the message the code raises on a rejected replay is
"Strong Customer Authentication has been rejected." (with a trailing
period), not the claim's "Strong Customer Authentication has been
rejected". -/
theorem invalid_public_key_message_counterexample :
    ((⟨"k", "s", true⟩ : APIClient).get (fun _ t => "sig:" ++ t)
        (fun h _ => if h.isEmpty then
            ⟨403, [("x-2fa-approval-result", "REJECTED"), ("x-2fa-approval", "tok")], "", none⟩
          else ⟨400, [], "", some (JsonVal.str "body")⟩)
        [] "/v1/me" []).1
      = Except.error
          (GetError.invalidPublicKey "Strong Customer Authentication has been rejected.")
    ∧ ((⟨"k", "s", true⟩ : APIClient).get (fun _ t => "sig:" ++ t)
        (fun h _ => if h.isEmpty then
            ⟨403, [("x-2fa-approval-result", "REJECTED"), ("x-2fa-approval", "tok")], "", none⟩
          else ⟨400, [], "", some (JsonVal.str "body")⟩)
        [] "/v1/me" []).1
      ≠ Except.error
          (GetError.invalidPublicKey "Strong Customer Authentication has been rejected") := by
  constructor
  · rfl
  · intro hcon
    rw [show ((⟨"k", "s", true⟩ : APIClient).get (fun _ t => "sig:" ++ t)
        (fun h _ => if h.isEmpty then
            ⟨403, [("x-2fa-approval-result", "REJECTED"), ("x-2fa-approval", "tok")], "", none⟩
          else ⟨400, [], "", some (JsonVal.str "body")⟩)
        [] "/v1/me" []).1
      = Except.error
          (GetError.invalidPublicKey "Strong Customer Authentication has been rejected.")
      from rfl] at hcon
    injection hcon with h1
    injection h1 with h2
    exact absurd h2 (by decide)

/-- C3 (amended): when an SCA replay is issued and the replay has status
400, `get` fails with `WiseInvalidPublicKeyError` carrying the message
"Strong Customer Authentication has been rejected." regardless of the
replay's body; and this error arises in no other situation: any
`invalidPublicKey` result implies the first response was an SCA challenge
and the replay's status was 400. -/
theorem get_replay_400_invalid_public_key (c : APIClient)
    (sign : String → String → String) (send : Transport) (hist : List Request)
    (path : String) (params : List (String × String)) :
    (∀ resp1 resp2 token,
        send hist (c.initialRequest path params) = resp1
        → sca_required resp1 = true
        → headerGet resp1 "x-2fa-approval" = some token
        → send (hist ++ [c.initialRequest path params])
            (c.replayRequest sign path params token) = resp2
        → resp2.status_code = 400
        → c.get sign send hist path params
            = (Except.error
                (GetError.invalidPublicKey "Strong Customer Authentication has been rejected."),
                hist ++ [c.initialRequest path params,
                  c.replayRequest sign path params token]))
    ∧ (∀ m, (c.get sign send hist path params).1
            = Except.error (GetError.invalidPublicKey m)
        → m = "Strong Customer Authentication has been rejected."
          ∧ sca_required (send hist (c.initialRequest path params)) = true
          ∧ ∃ token,
              headerGet (send hist (c.initialRequest path params)) "x-2fa-approval"
                = some token
              ∧ (send (hist ++ [c.initialRequest path params])
                  (c.replayRequest sign path params token)).status_code = 400) := by
  constructor
  · intro resp1 resp2 token hresp1 hsca htok hresp2 h400
    simp only [APIClient.get, hresp1, hsca, if_true, htok, hresp2]
    rw [if_pos (by simp [h400])]
  · intro m hm
    simp only [APIClient.get] at hm
    split at hm
    case isTrue hsca =>
      split at hm
      case h_1 => simp at hm
      case h_2 token htok =>
        split at hm
        case isTrue h400 =>
          simp only [Except.error.injEq, GetError.invalidPublicKey.injEq] at hm
          exact ⟨hm.symm, hsca, token, htok, by simpa using h400⟩
        case isFalse => exact absurd hm (finishResponse_ne_invalidPublicKey _ m)
    case isFalse => exact absurd hm (finishResponse_ne_invalidPublicKey _ m)

/-- C3 witness: a concrete challenge whose replay is 400 with a JSON body;
the call fails with the invalid-public-key error. -/
theorem get_replay_400_invalid_public_key_witness :
    (⟨"k", "s", true⟩ : APIClient).get (fun _ t => "sig:" ++ t)
      (fun h _ => if h.isEmpty then
          ⟨403, [("x-2fa-approval-result", "REJECTED"), ("x-2fa-approval", "tok")], "", none⟩
        else ⟨400, [], "", some (JsonVal.str "body")⟩)
      [] "/v1/me" []
      = (Except.error
          (GetError.invalidPublicKey "Strong Customer Authentication has been rejected."),
          [] ++ [(⟨"k", "s", true⟩ : APIClient).initialRequest "/v1/me" [],
            (⟨"k", "s", true⟩ : APIClient).replayRequest (fun _ t => "sig:" ++ t)
              "/v1/me" [] "tok"]) := by
  have h := get_replay_400_invalid_public_key (⟨"k", "s", true⟩ : APIClient)
    (fun _ t => "sig:" ++ t)
    (fun h _ => if h.isEmpty then
        ⟨403, [("x-2fa-approval-result", "REJECTED"), ("x-2fa-approval", "tok")], "", none⟩
      else ⟨400, [], "", some (JsonVal.str "body")⟩)
    [] "/v1/me" []
  exact h.1 ⟨403, [("x-2fa-approval-result", "REJECTED"), ("x-2fa-approval", "tok")], "", none⟩
    ⟨400, [], "", some (JsonVal.str "body")⟩ "tok" rfl (by decide) (by decide) rfl rfl

/-- Every `get` call extends the history with its own initial request
first (helper for the paginator claims). -/
theorem get_snd_cons (c : APIClient) (sign : String → String → String)
    (send : Transport) (hist : List Request) (path : String)
    (params : List (String × String)) :
    ∃ rest, (c.get sign send hist path params).2
      = hist ++ c.initialRequest path params :: rest := by
  simp only [APIClient.get]
  split
  · split
    · exact ⟨[], rfl⟩
    · split
      · exact ⟨[_], rfl⟩
      · exact ⟨[_], rfl⟩
  · exact ⟨[], rfl⟩

/-- The pagination loop only appends to the request history (helper). -/
theorem activitiesLoop_snd_append (c : APIClient) (sign : String → String → String)
    (send : Transport) (path : String) (params : List (String × String)) :
    ∀ fuel nc hist, ∃ rest,
      (c.activitiesLoop sign send path params fuel nc hist).2 = hist ++ rest := by
  intro fuel
  induction fuel with
  | zero =>
    intro nc hist
    exact ⟨[], by simp [APIClient.activitiesLoop]⟩
  | succ fuel ih =>
    intro nc hist
    obtain ⟨rest1, hr0⟩ := get_snd_cons c sign send hist path (currentParams params nc)
    simp only [APIClient.activitiesLoop]
    rcases hE : c.get sign send hist path (currentParams params nc) with ⟨res, hist2⟩
    rw [hE] at hr0
    have hr : hist2 = hist ++ c.initialRequest path (currentParams params nc) :: rest1 := hr0
    cases res with
    | error e => exact ⟨_, hr⟩
    | ok response_data =>
      dsimp only
      split
      · obtain ⟨rest2, h20⟩ := ih _ hist2
        rcases hL : c.activitiesLoop sign send path params fuel _ hist2 with ⟨pr, h⟩
        rw [hL] at h20
        have h2 : h = hist2 ++ rest2 := h20
        cases pr with
        | done acts =>
          exact ⟨_, by dsimp only; rw [h2, hr, List.append_assoc]⟩
        | failed acts e =>
          exact ⟨_, by dsimp only; rw [h2, hr, List.append_assoc]⟩
        | fuelOut acts =>
          exact ⟨_, by dsimp only; rw [h2, hr, List.append_assoc]⟩
      · exact ⟨_, hr⟩

/-- C7: a `size` outside `[1, 100]` makes `get_activities` fail
immediately with the `ValueError` and an unchanged request history (no
network call); a `size` inside the range never produces the `ValueError`,
and (as soon as the loop runs at least one iteration) the first request
issued carries `size` among its query parameters. -/
theorem get_activities_size_validation (c : APIClient)
    (sign : String → String → String) (send : Transport) (hist : List Request)
    (profile_id : String) (monetary_resource_type status : Option String)
    (since until_ : Option String) (n : Int) :
    (¬ (1 ≤ n ∧ n ≤ 100) → ∀ fuel,
        c.get_activities sign send hist profile_id monetary_resource_type status
            since until_ (some n) fuel
          = (ActivitiesOutcome.valueError "Size must be between 1 and 100", hist))
    ∧ (1 ≤ n ∧ n ≤ 100 →
        (∀ fuel msg,
          (c.get_activities sign send hist profile_id monetary_resource_type status
              since until_ (some n) fuel).1 ≠ ActivitiesOutcome.valueError msg)
        ∧ ∀ fuel, ∃ req rest,
            (c.get_activities sign send hist profile_id monetary_resource_type status
                since until_ (some n) (fuel + 1)).2 = hist ++ req :: rest
            ∧ ("size", toString n) ∈ req.params) := by
  constructor
  · intro hout fuel
    simp only [APIClient.get_activities]
    rw [if_neg hout]
  · intro hin
    constructor
    · intro fuel msg
      simp only [APIClient.get_activities]
      rw [if_pos hin]
      intro hcon
      exact ActivitiesOutcome.noConfusion hcon
    · intro fuel
      simp only [APIClient.get_activities]
      rw [if_pos hin]
      simp only [APIClient.activitiesLoop]
      rcases hE : c.get sign send hist
          ("/v1/profiles/" ++ profile_id ++ "/activities")
          (currentParams
            (optFilterParam "monetaryResourceType" monetary_resource_type
              ++ optFilterParam "status" status
              ++ optDateParam "since" since
              ++ optDateParam "until" until_ ++ [("size", toString n)])
            JsonVal.null) with ⟨res, hist2⟩
      obtain ⟨rest1, hr0⟩ := get_snd_cons c sign send hist
        ("/v1/profiles/" ++ profile_id ++ "/activities")
        (currentParams
          (optFilterParam "monetaryResourceType" monetary_resource_type
            ++ optFilterParam "status" status
            ++ optDateParam "since" since
            ++ optDateParam "until" until_ ++ [("size", toString n)])
          JsonVal.null)
      rw [hE] at hr0
      have hr : hist2 = hist ++ _ :: rest1 := hr0
      have hmem : ("size", toString n)
          ∈ (c.initialRequest ("/v1/profiles/" ++ profile_id ++ "/activities")
              (currentParams
                (optFilterParam "monetaryResourceType" monetary_resource_type
                  ++ optFilterParam "status" status
                  ++ optDateParam "since" since
                  ++ optDateParam "until" until_ ++ [("size", toString n)])
                JsonVal.null)).params := by
        simp [APIClient.initialRequest, currentParams, JsonVal.truthy]
      cases res with
      | error e => exact ⟨_, rest1, hr, hmem⟩
      | ok response_data =>
        dsimp only
        split
        · rcases hL : c.activitiesLoop sign send
              ("/v1/profiles/" ++ profile_id ++ "/activities")
              (optFilterParam "monetaryResourceType" monetary_resource_type
                ++ optFilterParam "status" status
                ++ optDateParam "since" since
                ++ optDateParam "until" until_ ++ [("size", toString n)])
              fuel _ hist2 with ⟨pr, h⟩
          obtain ⟨rest2, h20⟩ := activitiesLoop_snd_append c sign send
            ("/v1/profiles/" ++ profile_id ++ "/activities")
            (optFilterParam "monetaryResourceType" monetary_resource_type
              ++ optFilterParam "status" status
              ++ optDateParam "since" since
              ++ optDateParam "until" until_ ++ [("size", toString n)])
            fuel _ hist2
          rw [hL] at h20
          have h2 : h = hist2 ++ rest2 := h20
          cases pr with
          | done acts =>
            exact ⟨_, rest1 ++ rest2, by dsimp only; rw [h2, hr, List.append_assoc, List.cons_append], hmem⟩
          | failed acts e =>
            exact ⟨_, rest1 ++ rest2, by dsimp only; rw [h2, hr, List.append_assoc, List.cons_append], hmem⟩
          | fuelOut acts =>
            exact ⟨_, rest1 ++ rest2, by dsimp only; rw [h2, hr, List.append_assoc, List.cons_append], hmem⟩
        · exact ⟨_, rest1, hr, hmem⟩

/-- C7 witness: `size = 0` fails before any request; `size = 50` runs and
its first request carries the `size` parameter. -/
theorem get_activities_size_validation_witness :
    ((⟨"k", "s", true⟩ : APIClient).get_activities (fun _ t => t)
        (fun _ _ => ⟨200, [], "", some (JsonVal.obj [])⟩) [] "p1"
        none none none none (some 0) 3
      = (ActivitiesOutcome.valueError "Size must be between 1 and 100", []))
    ∧ (∃ req rest,
        ((⟨"k", "s", true⟩ : APIClient).get_activities (fun _ t => t)
            (fun _ _ => ⟨200, [], "", some (JsonVal.obj [])⟩) [] "p1"
            none none none none (some 50) (2 + 1)).2 = [] ++ req :: rest
        ∧ ("size", toString (50 : Int)) ∈ req.params) := by
  have h0 := get_activities_size_validation (⟨"k", "s", true⟩ : APIClient) (fun _ t => t)
    (fun _ _ => ⟨200, [], "", some (JsonVal.obj [])⟩) [] "p1" none none none none 0
  have h50 := get_activities_size_validation (⟨"k", "s", true⟩ : APIClient) (fun _ t => t)
    (fun _ _ => ⟨200, [], "", some (JsonVal.obj [])⟩) [] "p1" none none none none 50
  exact ⟨h0.1 (by omega) 3, (h50.2 (by omega)).2 2⟩

/-- C9: when a page response's body lacks the `activities` key but has a
truthy `cursor`, that iteration of the pagination loop yields zero records
and the loop continues with exactly that cursor: the run equals the
continuation run, with nothing prepended. -/
theorem activities_missing_key_continues (c : APIClient)
    (sign : String → String → String) (send : Transport) (path : String)
    (params : List (String × String)) (fuel : Nat) (nc : JsonVal)
    (hist : List Request) (resp : Response) (body cur : JsonVal)
    (hresp : send hist (c.initialRequest path (currentParams params nc)) = resp)
    (hsca : sca_required resp = false)
    (h2xx : 200 ≤ resp.status_code ∧ resp.status_code < 300)
    (hjson : resp.json = some body)
    (hnoact : body.get? "activities" = none)
    (hcur : body.get? "cursor" = some cur)
    (htruthy : cur.truthy = true) :
    c.activitiesLoop sign send path params (fuel + 1) nc hist
      = c.activitiesLoop sign send path params fuel cur
          (hist ++ [c.initialRequest path (currentParams params nc)]) := by
  have hget : c.get sign send hist path (currentParams params nc)
      = (Except.ok body, hist ++ [c.initialRequest path (currentParams params nc)]) := by
    simp only [APIClient.get, hresp, hsca, Bool.false_eq_true, if_false]
    unfold finishResponse
    rw [if_neg (by omega), hjson]
  simp only [APIClient.activitiesLoop, hget, hnoact, hcur, htruthy, if_true]
  rcases hL : c.activitiesLoop sign send path params fuel cur
      (hist ++ [c.initialRequest path (currentParams params nc)]) with ⟨pr, h⟩
  cases pr <;> simp

/-- C9 witness: a page with only a `cursor` field; one iteration passes
through to the next page request with that cursor. -/
theorem activities_missing_key_continues_witness :
    (⟨"k", "s", true⟩ : APIClient).activitiesLoop (fun _ t => t)
        (fun _ _ => ⟨200, [], "", some (JsonVal.obj [("cursor", JsonVal.str "c9")])⟩)
        "/v1/profiles/p1/activities" [] (1 + 1) JsonVal.null []
      = (⟨"k", "s", true⟩ : APIClient).activitiesLoop (fun _ t => t)
          (fun _ _ => ⟨200, [], "", some (JsonVal.obj [("cursor", JsonVal.str "c9")])⟩)
          "/v1/profiles/p1/activities" [] 1 (JsonVal.str "c9")
          ([] ++ [(⟨"k", "s", true⟩ : APIClient).initialRequest
            "/v1/profiles/p1/activities" (currentParams [] JsonVal.null)]) := by
  exact activities_missing_key_continues (⟨"k", "s", true⟩ : APIClient) (fun _ t => t)
    (fun _ _ => ⟨200, [], "", some (JsonVal.obj [("cursor", JsonVal.str "c9")])⟩)
    "/v1/profiles/p1/activities" [] 1 JsonVal.null []
    ⟨200, [], "", some (JsonVal.obj [("cursor", JsonVal.str "c9")])⟩
    (JsonVal.obj [("cursor", JsonVal.str "c9")]) (JsonVal.str "c9")
    rfl (by decide) (by decide) rfl rfl rfl (by decide)

/-- A cursor-determined (stateless) activities server: every response is
a plain 200 JSON page whose body depends only on the `nextCursor` query
parameter of the request. -/
def cursorServer (srv : Option String → JsonVal) : Transport :=
  fun _hist req => ⟨200, [], "", some (srv (assocGet req.params "nextCursor"))⟩

/-- The cursor the loop reads from the next page fetched from a
cursor-determined server when its current cursor is `nc`. -/
def stepCursor (srv : Option String → JsonVal) (nc : JsonVal) : JsonVal :=
  match (srv (if nc.truthy then some nc.toParam else none)).get? "cursor" with
  | some j => j
  | none => JsonVal.null

/-- Against a cursor-determined server, `get` succeeds with the page body
and issues a single request (helper). -/
theorem get_cursorServer (c : APIClient) (sign : String → String → String)
    (srv : Option String → JsonVal) (hist : List Request) (path : String)
    (params : List (String × String)) :
    c.get sign (cursorServer srv) hist path params
      = (Except.ok (srv (assocGet params "nextCursor")),
          hist ++ [c.initialRequest path params]) := by
  simp only [APIClient.get, cursorServer, APIClient.initialRequest]
  rw [show sca_required ⟨200, [], "", some (srv (assocGet params "nextCursor"))⟩ = false
    from rfl]
  simp only [Bool.false_eq_true, if_false]
  rfl

/-- With the filter parameters empty, the `nextCursor` parameter of an
iteration's request is exactly the truthiness-guarded current cursor
(helper). -/
theorem assocGet_currentParams_nil (nc : JsonVal) :
    assocGet (currentParams [] nc) "nextCursor"
      = if nc.truthy then some nc.toParam else none := by
  cases h : nc.truthy
  · simp [currentParams, h, assocGet]
  · simp [currentParams, h, assocGet]

/-- If the cursor chain of a cursor-determined server dies out within the
fuel, the loop halts by `break` (helper, part one of the termination
claim). -/
theorem activitiesLoop_done_of_chain (c : APIClient)
    (sign : String → String → String) (srv : Option String → JsonVal)
    (path : String) :
    ∀ k nc fuel hist, k < fuel
      → ((stepCursor srv)^[k + 1] nc).truthy = false
      → ∃ acts h, c.activitiesLoop sign (cursorServer srv) path [] fuel nc hist
          = (PageResult.done acts, h) := by
  intro k
  induction k with
  | zero =>
    intro nc fuel hist hk hcur
    obtain ⟨f, rfl⟩ : ∃ f, fuel = f + 1 := ⟨fuel - 1, by omega⟩
    rw [Function.iterate_one] at hcur
    simp only [APIClient.activitiesLoop, get_cursorServer, assocGet_currentParams_nil]
    rw [show (match (srv (if nc.truthy = true then some nc.toParam else none)).get? "cursor"
        with | some j => j | none => JsonVal.null) = stepCursor srv nc from rfl]
    rw [hcur]
    simp only [Bool.false_eq_true, if_false]
    exact ⟨_, _, rfl⟩
  | succ k ih =>
    intro nc fuel hist hk hcur
    obtain ⟨f, rfl⟩ : ∃ f, fuel = f + 1 := ⟨fuel - 1, by omega⟩
    simp only [APIClient.activitiesLoop, get_cursorServer, assocGet_currentParams_nil]
    rw [show (match (srv (if nc.truthy = true then some nc.toParam else none)).get? "cursor"
        with | some j => j | none => JsonVal.null) = stepCursor srv nc from rfl]
    cases hb : (stepCursor srv nc).truthy
    · simp only [Bool.false_eq_true, if_false]
      exact ⟨_, _, rfl⟩
    · simp only [if_true]
      have hcur2 : ((stepCursor srv)^[k + 1] (stepCursor srv nc)).truthy = false := by
        rw [← Function.iterate_succ_apply]
        exact hcur
      obtain ⟨acts, h, hL⟩ := ih (stepCursor srv nc) f
        (hist ++ [c.initialRequest path (currentParams [] nc)]) (by omega) hcur2
      rw [hL]
      exact ⟨_, _, rfl⟩

/-- If every page of a cursor-determined server carries a truthy cursor,
the loop never breaks: it exhausts any amount of fuel (helper, part two of
the termination claim). -/
theorem activitiesLoop_fuelOut_of_always (c : APIClient)
    (sign : String → String → String) (srv : Option String → JsonVal)
    (path : String) (hall : ∀ j, (stepCursor srv j).truthy = true) :
    ∀ fuel nc hist, ∃ acts h,
      c.activitiesLoop sign (cursorServer srv) path [] fuel nc hist
        = (PageResult.fuelOut acts, h) := by
  intro fuel
  induction fuel with
  | zero => intro nc hist; exact ⟨[], hist, rfl⟩
  | succ fuel ih =>
    intro nc hist
    simp only [APIClient.activitiesLoop, get_cursorServer, assocGet_currentParams_nil]
    rw [show (match (srv (if nc.truthy = true then some nc.toParam else none)).get? "cursor"
        with | some j => j | none => JsonVal.null) = stepCursor srv nc from rfl]
    rw [hall nc]
    simp only [if_true]
    obtain ⟨acts, h, hL⟩ := ih (stepCursor srv nc)
      (hist ++ [c.initialRequest path (currentParams [] nc)])
    rw [hL]
    exact ⟨_, _, rfl⟩

/-- C8: the pagination loop stops exactly when a page's cursor is absent
or falsy.  Against a cursor-determined server: if the chain of cursors
reaches a falsy cursor within the fuel, the loop halts normally (`done`,
finite sequence); and the client adds no loop detection: if every page
carries a truthy cursor, the loop exhausts any amount of fuel
(non-terminating iteration). -/
theorem activities_pagination_termination (c : APIClient)
    (sign : String → String → String) (srv : Option String → JsonVal)
    (path : String) :
    (∀ k nc fuel hist, k < fuel
      → ((stepCursor srv)^[k + 1] nc).truthy = false
      → ∃ acts h, c.activitiesLoop sign (cursorServer srv) path [] fuel nc hist
          = (PageResult.done acts, h))
    ∧ ((∀ j, (stepCursor srv j).truthy = true)
      → ∀ fuel nc hist, ∃ acts h,
          c.activitiesLoop sign (cursorServer srv) path [] fuel nc hist
            = (PageResult.fuelOut acts, h)) :=
  ⟨activitiesLoop_done_of_chain c sign srv path,
    activitiesLoop_fuelOut_of_always c sign srv path⟩

/-- C8 witness: a server whose first page has no cursor terminates within
one iteration; a server that always returns cursor `"again"` exhausts any
fuel (shown for fuel 2). -/
theorem activities_pagination_termination_witness :
    (∃ acts h, (⟨"k", "s", true⟩ : APIClient).activitiesLoop (fun _ t => t)
        (cursorServer (fun _ => JsonVal.obj [("activities", JsonVal.arr [])]))
        "/v1/profiles/p1/activities" [] 1 JsonVal.null []
        = (PageResult.done acts, h))
    ∧ (∃ acts h, (⟨"k", "s", true⟩ : APIClient).activitiesLoop (fun _ t => t)
        (cursorServer (fun _ => JsonVal.obj [("cursor", JsonVal.str "again")]))
        "/v1/profiles/p1/activities" [] 2 JsonVal.null []
        = (PageResult.fuelOut acts, h)) := by
  constructor
  · exact (activities_pagination_termination (⟨"k", "s", true⟩ : APIClient) (fun _ t => t)
      (fun _ => JsonVal.obj [("activities", JsonVal.arr [])])
      "/v1/profiles/p1/activities").1 0 JsonVal.null 1 [] (by omega) (by decide)
  · exact (activities_pagination_termination (⟨"k", "s", true⟩ : APIClient) (fun _ t => t)
      (fun _ => JsonVal.obj [("cursor", JsonVal.str "again")])
      "/v1/profiles/p1/activities").2 (fun j => rfl) 2 JsonVal.null []

/-- The three-page script of C6: pages are served in order, keyed by how
many requests have been issued so far. -/
def threePageSend : Transport := fun hist _req =>
  if hist.length == 0 then
    ⟨200, [], "", some (JsonVal.obj
      [("activities", JsonVal.arr [JsonVal.str "a", JsonVal.str "b"]),
        ("cursor", JsonVal.str "c1")])⟩
  else if hist.length == 1 then
    ⟨200, [], "", some (JsonVal.obj
      [("activities", JsonVal.arr [JsonVal.str "c"]), ("cursor", JsonVal.str "c2")])⟩
  else
    ⟨200, [], "", some (JsonVal.obj
      [("activities", JsonVal.arr [JsonVal.str "d"]), ("cursor", JsonVal.null)])⟩

/-- C6: on the page sequence `[{activities:[a,b], cursor:"c1"},
{activities:[c], cursor:"c2"}, {activities:[d], cursor:null}]`, the
paginator yields exactly `a, b, c, d` in order, issues exactly three
requests, the first carrying no `nextCursor` parameter, the second
carrying `nextCursor = "c1"` and the third `nextCursor = "c2"`. -/
theorem activities_three_page_run :
    ((⟨"k", "s", true⟩ : APIClient).get_activities (fun _ t => t) threePageSend []
        "p1" none none none none none 5).1
      = ActivitiesOutcome.run (PageResult.done
          [JsonVal.str "a", JsonVal.str "b", JsonVal.str "c", JsonVal.str "d"])
    ∧ ((⟨"k", "s", true⟩ : APIClient).get_activities (fun _ t => t) threePageSend []
        "p1" none none none none none 5).2.map
          (fun r => assocGet r.params "nextCursor")
      = [none, some "c1", some "c2"] :=
  ⟨rfl, rfl⟩

/-- C10 counterexample: a balance-statement call with `type = pdf` whose
response carries raw PDF bytes is *not* returned opaque: the body goes
through `resp.json()` like every other endpoint, so a non-JSON PDF body
raises the JSON decode error instead of being returned raw. -/
theorem statement_pdf_not_raw_counterexample :
    ((⟨"k", "s", true⟩ : APIClient).get_balance_statement (fun _ t => t)
        (fun _ _ => ⟨200, [], "%PDF-1.4 raw bytes", none⟩) []
        "p1" "b1" "USD" "2024-01-01T00:00:00Z" "2024-01-31T23:59:59Z"
        StatementType.pdf false).1
      = Except.error GetError.jsonDecodeError
    ∧ ((⟨"k", "s", true⟩ : APIClient).get_borderless_account_statement (fun _ t => t)
        (fun _ _ => ⟨200, [], "csv,raw,bytes", none⟩) []
        "p1" "a1" "USD" "2024-01-01T00:00:00Z" "2024-01-31T23:59:59Z"
        StatementType.csv false).1
      = Except.error GetError.jsonDecodeError :=
  ⟨rfl, rfl⟩

/-- C10 (amended): every endpoint, the statement calls with `type = pdf`
or `csv` included, returns the JSON-parsed body `resp.json()` — the raw
response content is never returned opaque.  For any non-SCA 2xx response
whose JSON parse succeeds, both statement calls and the generic request
executor return the parsed body, regardless of the raw content. -/
theorem statement_endpoints_json_parsed (c : APIClient)
    (sign : String → String → String) (send : Transport) (hist : List Request)
    (profile_id balance_id account_id currency start end_ : String)
    (type : StatementType) (compact : Bool) :
    (∀ resp body,
      send hist (c.initialRequest
          ("/v1/profiles/" ++ profile_id ++ "/balance-statements/" ++ balance_id
            ++ "/statement." ++ type.ext)
          [("intervalStart", start), ("intervalEnd", end_), ("currency", currency),
            ("type", if compact then "COMPACT" else "FLAT")]) = resp
      → sca_required resp = false
      → 200 ≤ resp.status_code ∧ resp.status_code < 300
      → resp.json = some body
      → (c.get_balance_statement sign send hist profile_id balance_id currency
          start end_ type compact).1 = Except.ok body)
    ∧ (∀ resp body,
      send hist (c.initialRequest
          ("/v3/profiles/" ++ profile_id ++ "/borderless-accounts/" ++ account_id
            ++ "/statement." ++ type.ext)
          [("intervalStart", start), ("intervalEnd", end_), ("currency", currency),
            ("type", if compact then "COMPACT" else "FLAT")]) = resp
      → sca_required resp = false
      → 200 ≤ resp.status_code ∧ resp.status_code < 300
      → resp.json = some body
      → (c.get_borderless_account_statement sign send hist profile_id account_id
          currency start end_ type compact).1 = Except.ok body)
    ∧ (∀ path params resp body,
      send hist (c.initialRequest path params) = resp
      → sca_required resp = false
      → 200 ≤ resp.status_code ∧ resp.status_code < 300
      → resp.json = some body
      → (c.get sign send hist path params).1 = Except.ok body) := by
  have hgen : ∀ path params resp body,
      send hist (c.initialRequest path params) = resp
      → sca_required resp = false
      → 200 ≤ resp.status_code ∧ resp.status_code < 300
      → resp.json = some body
      → (c.get sign send hist path params).1 = Except.ok body := by
    intro path params resp body hresp hsca h2xx hjson
    simp only [APIClient.get, hresp, hsca, Bool.false_eq_true, if_false]
    unfold finishResponse
    rw [if_neg (by omega), hjson]
  exact ⟨fun resp body hresp hsca h2xx hjson =>
      hgen _ _ resp body hresp hsca h2xx hjson,
    fun resp body hresp hsca h2xx hjson =>
      hgen _ _ resp body hresp hsca h2xx hjson,
    hgen⟩

/-- C10 witness: a csv-format statement response whose body is JSON text;
the parsed JSON value is returned, not the raw content. -/
theorem statement_endpoints_json_parsed_witness :
    ((⟨"k", "s", true⟩ : APIClient).get_balance_statement (fun _ t => t)
        (fun _ _ => ⟨200, [], "raw", some (JsonVal.str "parsed")⟩) []
        "p1" "b1" "USD" "s" "e" StatementType.csv false).1
      = Except.ok (JsonVal.str "parsed") := by
  exact (statement_endpoints_json_parsed (⟨"k", "s", true⟩ : APIClient) (fun _ t => t)
      (fun _ _ => ⟨200, [], "raw", some (JsonVal.str "parsed")⟩) []
      "p1" "b1" "a1" "USD" "s" "e" StatementType.csv false).1
    ⟨200, [], "raw", some (JsonVal.str "parsed")⟩ (JsonVal.str "parsed")
    rfl (by decide) (by decide) rfl

end WiseApi
